import Mathlib

/-!
# Verification of the excludr screening core

Shallow embedding of the screening state machine, decision recording,
next-article selection, statistics aggregation, AI screening agent and
criterion ordering of the excludr systematic-review backend, together
with proofs of the behavioural properties claimed for them.

Sources embedded:
* `app/features/research/models.py` (Article, ArticleStatus, FinalDecision)
* `app/features/screening/models.py` (ScreeningStage, ScreeningDecisionType,
  DecisionSource, ScreeningDecision, ScreeningDecisionCreate, ScreeningStats)
* `app/features/research/services.py` (`update_article_status_from_decision`)
* `app/features/screening/services.py` (`create_decision`,
  `get_next_article_for_screening`, `get_screening_stats`)
* `app/features/screening/routers.py` (`create_decision` endpoint)
* `app/features/research/agent.py` (`screen_article`)
* `app/features/criteria/services.py` (`get_next_order`, `create_criterion`)
-/

namespace Excludr

/-- `ArticleStatus` enum from `app/features/research/models.py`. -/
inductive ArticleStatus
  | imported
  | screening
  | awaiting_full_text
  | full_text_retrieved
  | included
  | excluded
deriving DecidableEq, Repr

/-- `ScreeningStage` enum from `app/features/screening/models.py`. -/
inductive ScreeningStage
  | title_abstract
  | full_text
  | completed
deriving DecidableEq, Repr

/-- `ScreeningDecisionType` enum from `app/features/screening/models.py`. -/
inductive ScreeningDecisionType
  | include
  | exclude
  | uncertain
deriving DecidableEq, Repr

/-- `FinalDecision` enum from `app/features/research/models.py`. -/
inductive FinalDecision
  | pending
  | included
  | excluded
deriving DecidableEq, Repr

/-- `DecisionSource` enum from `app/features/screening/models.py`. -/
inductive DecisionSource
  | ai_agent
  | human
deriving DecidableEq, Repr

/-- `CriterionEvaluation` from `app/features/research/schemas.py`: the
per-criterion judgment produced by the AI agent.  The float confidence is
modelled as a rational. -/
structure CriterionEvaluation where
  criterion_code : String
  criterion_type : String
  met : Option Bool
  confidence : ℚ
  reasoning : String
deriving DecidableEq, Repr

/-- The JSON blob stored in `Article.ai_check_result`.  `screen_article`
stores either a condensed summary of a successful run or `{"error": msg}`. -/
inductive AiCheckResult
  | summary (decision : ScreeningDecisionType) (confidence : ℚ)
      (criteria_evaluations : List (String × CriterionEvaluation)) (text : String)
  | failure (message : String)
deriving DecidableEq, Repr

/-- `Article` from `app/features/research/models.py`, restricted to the
fields read or written by the screening core.  Timestamps are modelled as
abstract `Nat` instants. -/
structure Article where
  id : Nat
  project_id : Nat
  status : ArticleStatus := ArticleStatus.imported
  current_stage : ScreeningStage := ScreeningStage.title_abstract
  final_decision : FinalDecision := FinalDecision.pending
  full_text_retrieved : Bool := false
  ai_check_status : String := "pending"
  ai_check_result : Option AiCheckResult := none
  last_ai_check : Option Nat := none
deriving DecidableEq, Repr

/-- `ScreeningDecision` row from `app/features/screening/models.py`. -/
structure ScreeningDecision where
  article_id : Nat
  reviewer_id : Option Nat := none
  stage : ScreeningStage
  decision : ScreeningDecisionType
  source : DecisionSource
  confidence_score : Option ℚ := none
  reasoning : Option String := none
  primary_exclusion_reason : Option String := none
  criteria_evaluations : Option (List (String × CriterionEvaluation)) := none
deriving DecidableEq, Repr

/-- `ScreeningDecisionCreate` request schema from
`app/features/screening/models.py`. -/
structure ScreeningDecisionCreate where
  stage : ScreeningStage
  decision : ScreeningDecisionType
  source : DecisionSource := DecisionSource.human
  confidence_score : Option ℚ := none
  reasoning : Option String := none
  primary_exclusion_reason : Option String := none
  criteria_evaluations : Option (List (String × CriterionEvaluation)) := none
deriving DecidableEq, Repr

/-- The persistent store the screening endpoints operate on: the `article`
and `screeningdecision` tables. -/
structure DB where
  articles : List Article
  decisions : List ScreeningDecision
deriving DecidableEq, Repr

/-- `ArticleService.update_article_status_from_decision` from
`app/features/research/services.py`: the screening state machine.  It
branches on the *decision's* stage; `uncertain` falls through every branch
and a `completed` stage matches no branch, leaving the article unchanged. -/
def update_article_status_from_decision (article : Article)
    (stage : ScreeningStage) (decision : ScreeningDecisionType) : Article :=
  match stage with
  | ScreeningStage.title_abstract =>
    match decision with
    | ScreeningDecisionType.include =>
        { article with
          status := ArticleStatus.awaiting_full_text
          current_stage := ScreeningStage.full_text }
    | ScreeningDecisionType.exclude =>
        { article with
          status := ArticleStatus.excluded
          final_decision := FinalDecision.excluded
          current_stage := ScreeningStage.completed }
    | ScreeningDecisionType.uncertain => article
  | ScreeningStage.full_text =>
    match decision with
    | ScreeningDecisionType.include =>
        { article with
          status := ArticleStatus.included
          final_decision := FinalDecision.included
          current_stage := ScreeningStage.completed }
    | ScreeningDecisionType.exclude =>
        { article with
          status := ArticleStatus.excluded
          final_decision := FinalDecision.excluded
          current_stage := ScreeningStage.completed }
    | ScreeningDecisionType.uncertain => article
  | ScreeningStage.completed => article

/-- `ArticleService.get_article_by_id`: first row of the article table with
the given primary key. -/
def get_article_by_id (db : DB) (article_id : Nat) : Option Article :=
  db.articles.find? (fun a => a.id == article_id)

/-- Committing a mutated `Article` through the ORM session updates the row
with that primary key in place. -/
def replace_article (db : DB) (a : Article) : DB :=
  { db with articles := db.articles.map (fun b => if b.id == a.id then a else b) }

/-- The `ScreeningDecision` row built by `ScreeningService.create_decision`
from the request payload, the path `article_id` and the computed
`reviewer_id`. -/
def mk_screening_decision (article_id : Nat) (data : ScreeningDecisionCreate)
    (reviewer_id : Option Nat) : ScreeningDecision :=
  { article_id := article_id
    reviewer_id := reviewer_id
    stage := data.stage
    decision := data.decision
    source := data.source
    confidence_score := data.confidence_score
    reasoning := data.reasoning
    primary_exclusion_reason := data.primary_exclusion_reason
    criteria_evaluations := data.criteria_evaluations }

/-- `ScreeningService.create_decision` from
`app/features/screening/services.py`: insert (and commit) the new decision
row; returns the persisted decision and the updated store. -/
def service_create_decision (db : DB) (article_id : Nat)
    (data : ScreeningDecisionCreate) (reviewer_id : Option Nat) :
    ScreeningDecision × DB :=
  let decision := mk_screening_decision article_id data reviewer_id
  (decision, { db with decisions := db.decisions ++ [decision] })

/-- HTTP-level failures surfaced by the screening endpoints. -/
inductive ApiError
  | notFound
deriving DecidableEq, Repr

/-- The `POST /projects/{project_id}/screening/articles/{article_id}/decisions`
endpoint (`create_decision` in `app/features/screening/routers.py`), after
the project-ownership guard: look the article up, 404 on a missing article
or project mismatch, compute `reviewer_id` from the decision source, persist
the decision, then unconditionally apply the state machine keyed on the
decision's stage. -/
def create_decision_endpoint (db : DB) (project_id article_id current_user_id : Nat)
    (data : ScreeningDecisionCreate) : Except ApiError (ScreeningDecision × DB) :=
  match get_article_by_id db article_id with
  | none => Except.error ApiError.notFound
  | some article =>
    if article.project_id == project_id then
      let reviewer_id :=
        if data.source == DecisionSource.human then some current_user_id else none
      let step := service_create_decision db article_id data reviewer_id
      let article2 := update_article_status_from_decision article data.stage data.decision
      Except.ok (step.1, replace_article step.2 article2)
    else Except.error ApiError.notFound

/-- Target status used by `get_next_article_for_screening`:
`screening` for `title_abstract`, `full_text_retrieved` otherwise. -/
def target_status_for (stage : ScreeningStage) : ArticleStatus :=
  if stage == ScreeningStage.title_abstract then ArticleStatus.screening
  else ArticleStatus.full_text_retrieved

/-- The `screened_article_ids` subquery: distinct article ids referenced by
decisions recorded at the given stage. -/
def screened_article_ids (decisions : List ScreeningDecision)
    (stage : ScreeningStage) : List Nat :=
  ((decisions.filter (fun d => d.stage == stage)).map ScreeningDecision.article_id).dedup

/-- The row filter of the `get_next_article_for_screening` query: project
match, target status, and no decision yet at the requested stage. -/
def is_eligible (decisions : List ScreeningDecision) (project_id : Nat)
    (stage : ScreeningStage) (a : Article) : Bool :=
  a.project_id == project_id && a.status == target_status_for stage &&
    !((screened_article_ids decisions stage).contains a.id)

/-- The rows selected by the `get_next_article_for_screening` query. -/
def eligible_articles (db : DB) (project_id : Nat) (stage : ScreeningStage) :
    List Article :=
  db.articles.filter (is_eligible db.decisions project_id stage)

/-- `ScreeningService.get_next_article_for_screening` from
`app/features/screening/services.py`: the first eligible article ordered by
ascending id, or `none` when the eligible set is empty. -/
def get_next_article_for_screening (db : DB) (project_id : Nat)
    (stage : ScreeningStage) : Option Article :=
  (eligible_articles db project_id stage).argmin Article.id

/-- `ScreeningStats` response schema from
`app/features/screening/models.py`; every counter defaults to 0. -/
structure ScreeningStats where
  total_articles : Nat := 0
  screened_title_abstract : Nat := 0
  screened_full_text : Nat := 0
  included : Nat := 0
  excluded : Nat := 0
  uncertain : Nat := 0
  awaiting_screening : Nat := 0
  awaiting_full_text : Nat := 0
deriving DecidableEq, Repr

/-- `COUNT(article.id) WHERE project_id = pid`. -/
def count_project_articles (db : DB) (pid : Nat) : Nat :=
  (db.articles.filter (fun a => a.project_id == pid)).length

/-- Per-status article count for a project (one bucket of the
`GROUP BY status` query). -/
def count_status (db : DB) (pid : Nat) (st : ArticleStatus) : Nat :=
  (db.articles.filter (fun a => a.project_id == pid && a.status == st)).length

/-- `COUNT(DISTINCT screeningdecision.article_id)` joined to the project's
articles, filtered to one stage. -/
def screened_count (db : DB) (pid : Nat) (stage : ScreeningStage) : Nat :=
  (((db.decisions.filter (fun d => d.stage == stage &&
      db.articles.any (fun a => a.id == d.article_id && a.project_id == pid))).map
        ScreeningDecision.article_id).dedup).length

/-- `ScreeningService.get_screening_stats` from
`app/features/screening/services.py`.  The status loop only assigns the
`included`, `excluded`, `awaiting_screening` and `awaiting_full_text`
buckets; `uncertain` keeps its default. -/
def get_screening_stats (db : DB) (pid : Nat) : ScreeningStats :=
  { total_articles := count_project_articles db pid
    screened_title_abstract := screened_count db pid ScreeningStage.title_abstract
    screened_full_text := screened_count db pid ScreeningStage.full_text
    included := count_status db pid ArticleStatus.included
    excluded := count_status db pid ArticleStatus.excluded
    uncertain := 0
    awaiting_screening := count_status db pid ArticleStatus.screening
    awaiting_full_text := count_status db pid ArticleStatus.awaiting_full_text }

/-- The two commit points of the create-decision flow, in program order:
`ScreeningService.create_decision` commits the decision row, then
`update_article_status_from_decision` commits the article mutation in a
second, separate transaction. -/
def create_decision_commit_steps (article : Article)
    (data : ScreeningDecisionCreate) (reviewer_id : Option Nat) :
    List (DB → DB) :=
  [fun db => { db with decisions := db.decisions ++ [mk_screening_decision article.id data reviewer_id] },
   fun db => replace_article db (update_article_status_from_decision article data.stage data.decision)]

/-- The store visible after the first `k` commits of an operation have run
and the rest have not (the operation failed there). -/
def committed_after (steps : List (DB → DB)) (k : Nat) (db : DB) : DB :=
  (steps.take k).foldl (fun s f => f s) db

/-- An operation given by a list of commit points is atomic when a failure
at any point leaves the store either untouched or fully updated. -/
def AtomicOp (steps : List (DB → DB)) (db : DB) : Prop :=
  ∀ k, k ≤ steps.length →
    committed_after steps k db = db ∨
      committed_after steps k db = committed_after steps steps.length db

/-- `ScreeningResult` from `app/features/research/schemas.py`: the
structured output of the AI evaluator.  Its `decision` literal is one of
the three decision strings, modelled by the decision enum. -/
structure ScreeningResult where
  decision : ScreeningDecisionType
  confidence : ℚ
  criteria_evaluations : List CriterionEvaluation
  primary_exclusion_reason : Option String := none
  summary_reasoning : String
deriving DecidableEq, Repr

/-- `screen_article` from `app/features/research/agent.py`, with the
`screening_agent.run` call abstracted as its outcome `run`.  On success it
persists an AI decision (stage chosen by `full_text_retrieved`) and stamps
the article's AI-check fields; on failure it stamps the error on the
article, creates no decision, and re-raises.  It never touches
`status`, `current_stage` or `final_decision`. -/
def screen_article (article : Article) (reviewer_id : Option Nat) (db : DB)
    (now : Nat) (run : Except String ScreeningResult) :
    Except String ScreeningDecision × DB :=
  match run with
  | Except.ok rs =>
      let stage :=
        if article.full_text_retrieved then ScreeningStage.full_text
        else ScreeningStage.title_abstract
      let evals := rs.criteria_evaluations.map (fun e => (e.criterion_code, e))
      let sd : ScreeningDecision :=
        { article_id := article.id
          reviewer_id := reviewer_id
          stage := stage
          decision := rs.decision
          source := DecisionSource.ai_agent
          confidence_score := some rs.confidence
          reasoning := some rs.summary_reasoning
          primary_exclusion_reason := rs.primary_exclusion_reason
          criteria_evaluations := some evals }
      let article2 :=
        { article with
          ai_check_status := "completed"
          ai_check_result :=
            some (AiCheckResult.summary rs.decision rs.confidence evals rs.summary_reasoning)
          last_ai_check := some now }
      (Except.ok sd, replace_article { db with decisions := db.decisions ++ [sd] } article2)
  | Except.error e =>
      let article2 :=
        { article with
          ai_check_status := "error"
          ai_check_result := some (AiCheckResult.failure e)
          last_ai_check := some now }
      (Except.error e, replace_article db article2)

/-- `CriterionType` enum from `app/features/criteria/models.py`. -/
inductive CriterionType
  | inclusion
  | exclusion
deriving DecidableEq, Repr

/-- `Criterion` row from `app/features/criteria/models.py`. -/
structure Criterion where
  id : Nat
  project_id : Nat
  type : CriterionType
  code : String
  description : String
  rationale : Option String := none
  order : Int := 0
  is_active : Bool := true
deriving DecidableEq, Repr

/-- `CriterionCreate` request schema from `app/features/criteria/models.py`
(`order` is optional with default 0). -/
structure CriterionCreate where
  type : CriterionType
  code : String
  description : String
  rationale : Option String := none
  order : Option Int := some 0
  is_active : Bool := true
deriving DecidableEq, Repr

/-- `CriterionService.get_next_order` from
`app/features/criteria/services.py`: the row with the greatest `order`
among the project's criteria of the given type determines `order + 1`;
with no such row the result is 0. -/
def get_next_order (criteria : List Criterion) (project_id : Nat)
    (criterion_type : CriterionType) : Int :=
  match (criteria.filter (fun c =>
      c.project_id == project_id && c.type == criterion_type)).argmax Criterion.order with
  | some c => c.order + 1
  | none => 0

/-- `CriterionService.create_criterion` from
`app/features/criteria/services.py`: build the row from the payload, then
auto-assign `order` via `get_next_order` when the payload's order is `None`
or `0`. -/
def create_criterion (criteria : List Criterion) (project_id : Nat)
    (data : CriterionCreate) (new_id : Nat) : Criterion :=
  let base : Criterion :=
    { id := new_id
      project_id := project_id
      type := data.type
      code := data.code
      description := data.description
      rationale := data.rationale
      order := data.order.getD 0
      is_active := data.is_active }
  if data.order == none || data.order == some 0 then
    { base with order := get_next_order criteria project_id data.type }
  else base

/-- The three-way state invariant of §8 of the spec:
`final_decision ≠ pending ⇔ current_stage = completed ⇔
status ∈ {included, excluded}`. -/
def ArticleInvariant (a : Article) : Prop :=
  (a.final_decision ≠ FinalDecision.pending ↔ a.current_stage = ScreeningStage.completed) ∧
    (a.current_stage = ScreeningStage.completed ↔
      (a.status = ArticleStatus.included ∨ a.status = ArticleStatus.excluded))

instance (a : Article) : Decidable (ArticleInvariant a) := by
  unfold ArticleInvariant
  infer_instance

instance (steps : List (DB → DB)) (db : DB) : Decidable (AtomicOp steps db) := by
  unfold AtomicOp
  infer_instance

/-! ## Helper lemmas -/

/-- The state machine never changes the article's primary key. -/
theorem update_id (a : Article) (st : ScreeningStage) (d : ScreeningDecisionType) :
    (update_article_status_from_decision a st d).id = a.id := by
  cases st <;> cases d <;> rfl

/-- Core preservation lemma: a stage-matched decision keeps the three-way
state invariant. -/
theorem invariant_update_stage_match (a : Article) (d : ScreeningDecisionType)
    (h : ArticleInvariant a) :
    ArticleInvariant (update_article_status_from_decision a a.current_stage d) := by
  obtain ⟨h1, h2⟩ := h
  have hpend : a.current_stage ≠ ScreeningStage.completed →
      a.final_decision = FinalDecision.pending := by
    intro hne
    by_contra hfd
    exact hne (h1.mp hfd)
  cases hst : a.current_stage <;> cases d <;>
    simp only [update_article_status_from_decision, ArticleInvariant] <;>
    simp_all

/-! ## C1: the transition table -/

/-- C1: for every article and every decision whose stage equals the
article's current stage, `update_article_status_from_decision` realises
exactly the spec's transition table: include at title_abstract gives
(awaiting_full_text, full_text, final unchanged); exclude at
title_abstract gives (excluded, completed, excluded); include at full_text
gives (included, completed, included); exclude at full_text gives
(excluded, completed, excluded); an uncertain decision leaves status,
current_stage and final_decision unchanged. -/
theorem transition_table_correct :
    (∀ a : Article, a.current_stage = ScreeningStage.title_abstract →
      update_article_status_from_decision a ScreeningStage.title_abstract
          ScreeningDecisionType.include =
        { a with
          status := ArticleStatus.awaiting_full_text
          current_stage := ScreeningStage.full_text }) ∧
    (∀ a : Article, a.current_stage = ScreeningStage.title_abstract →
      update_article_status_from_decision a ScreeningStage.title_abstract
          ScreeningDecisionType.exclude =
        { a with
          status := ArticleStatus.excluded
          current_stage := ScreeningStage.completed
          final_decision := FinalDecision.excluded }) ∧
    (∀ a : Article, a.current_stage = ScreeningStage.full_text →
      update_article_status_from_decision a ScreeningStage.full_text
          ScreeningDecisionType.include =
        { a with
          status := ArticleStatus.included
          current_stage := ScreeningStage.completed
          final_decision := FinalDecision.included }) ∧
    (∀ a : Article, a.current_stage = ScreeningStage.full_text →
      update_article_status_from_decision a ScreeningStage.full_text
          ScreeningDecisionType.exclude =
        { a with
          status := ArticleStatus.excluded
          current_stage := ScreeningStage.completed
          final_decision := FinalDecision.excluded }) ∧
    (∀ (a : Article) (st : ScreeningStage), st = a.current_stage →
      update_article_status_from_decision a st ScreeningDecisionType.uncertain = a) := by
  refine ⟨fun a _ => rfl, fun a _ => rfl, fun a _ => rfl, fun a _ => rfl, ?_⟩
  intro a st _
  cases st <;> rfl

/-- Witness for C1: the table evaluated on concrete articles at their own
current stage. -/
theorem transition_table_correct_witness :
    update_article_status_from_decision
        { id := 1, project_id := 1, status := ArticleStatus.screening,
          current_stage := ScreeningStage.title_abstract } ScreeningStage.title_abstract
        ScreeningDecisionType.include =
      { id := 1, project_id := 1, status := ArticleStatus.awaiting_full_text,
        current_stage := ScreeningStage.full_text } ∧
    update_article_status_from_decision
        { id := 2, project_id := 1, status := ArticleStatus.full_text_retrieved,
          current_stage := ScreeningStage.full_text } ScreeningStage.full_text
        ScreeningDecisionType.exclude =
      { id := 2, project_id := 1, status := ArticleStatus.excluded,
        current_stage := ScreeningStage.completed,
        final_decision := FinalDecision.excluded } ∧
    update_article_status_from_decision
        { id := 3, project_id := 1, status := ArticleStatus.screening,
          current_stage := ScreeningStage.title_abstract } ScreeningStage.title_abstract
        ScreeningDecisionType.uncertain =
      { id := 3, project_id := 1, status := ArticleStatus.screening,
        current_stage := ScreeningStage.title_abstract } :=
  ⟨transition_table_correct.1 _ rfl,
   transition_table_correct.2.2.2.1 _ rfl,
   transition_table_correct.2.2.2.2 _ ScreeningStage.title_abstract rfl⟩

/-! ## C2: the three-way invariant -/

/-- C2 (amended): the invariant `final_decision ≠ pending ⇔ current_stage =
completed ⇔ status ∈ {included, excluded}` is preserved by every decision
application performed through the create-decision endpoint, provided the
submitted decision's stage equals the article's current stage and the
article satisfied the invariant beforehand. -/
theorem create_decision_stage_match_preserves_invariant
    (db : DB) (project_id article_id user_id : Nat) (data : ScreeningDecisionCreate)
    (d : ScreeningDecision) (db2 : DB) (a : Article)
    (hok : create_decision_endpoint db project_id article_id user_id data =
      Except.ok (d, db2))
    (hfind : get_article_by_id db article_id = some a)
    (hinv : ArticleInvariant a)
    (hstage : data.stage = a.current_stage) :
    ∀ b ∈ db2.articles, b.id = a.id → ArticleInvariant b := by
  unfold create_decision_endpoint at hok
  rw [hfind] at hok
  dsimp only at hok
  by_cases hp : a.project_id == project_id
  · rw [if_pos hp] at hok
    simp only [Except.ok.injEq, Prod.mk.injEq] at hok
    obtain ⟨-, hdb2⟩ := hok
    subst hdb2
    intro b hb hbid
    simp only [service_create_decision, replace_article, List.mem_map] at hb
    obtain ⟨b0, _, hbeq⟩ := hb
    by_cases hid :
        b0.id == (update_article_status_from_decision a data.stage data.decision).id
    · rw [if_pos hid] at hbeq
      subst hbeq
      rw [hstage]
      exact invariant_update_stage_match a data.decision hinv
    · rw [if_neg hid] at hbeq
      subst hbeq
      rw [update_id, ← hbid] at hid
      simp at hid
  · rw [if_neg hp] at hok
    exact absurd hok (by simp)

/-- Sample article used in concrete evaluations: a fresh article that has
entered title/abstract screening. -/
def sampleScreeningArticle : Article :=
  { id := 1, project_id := 1, status := ArticleStatus.screening }

/-- Sample request payload: a human include decision at title_abstract. -/
def sampleIncludeTA : ScreeningDecisionCreate :=
  { stage := ScreeningStage.title_abstract,
    decision := ScreeningDecisionType.include }

/-- The article `sampleScreeningArticle` after an include at
title_abstract. -/
def sampleAwaitingFullText : Article :=
  { id := 1, project_id := 1, status := ArticleStatus.awaiting_full_text,
    current_stage := ScreeningStage.full_text }

/-- Witness for C2: a stage-matched include at title_abstract on a fresh
screening article keeps the invariant. -/
theorem create_decision_stage_match_preserves_invariant_witness :
    ArticleInvariant sampleAwaitingFullText :=
  create_decision_stage_match_preserves_invariant
    { articles := [sampleScreeningArticle], decisions := [] }
    1 1 7 sampleIncludeTA
    (mk_screening_decision 1 sampleIncludeTA (some 7))
    { articles := [sampleAwaitingFullText],
      decisions := [mk_screening_decision 1 sampleIncludeTA (some 7)] }
    sampleScreeningArticle
    rfl rfl (by decide) rfl
    sampleAwaitingFullText
    (by decide) rfl

/-- A freshly imported article (all screening fields at their defaults). -/
def sampleImportedArticle : Article := { id := 1, project_id := 1 }

/-- Request payload: a human include decision at full_text. -/
def sampleIncludeFT : ScreeningDecisionCreate :=
  { stage := ScreeningStage.full_text,
    decision := ScreeningDecisionType.include }

/-- A completed, included article. -/
def sampleCompletedIncluded : Article :=
  { id := 1, project_id := 1, status := ArticleStatus.included,
    current_stage := ScreeningStage.completed,
    final_decision := FinalDecision.included }

/-- The invariant-violating article state produced in the C2
counterexample. -/
def sampleBrokenArticle : Article :=
  { id := 1, project_id := 1, status := ArticleStatus.awaiting_full_text,
    current_stage := ScreeningStage.full_text,
    final_decision := FinalDecision.included }

/-- Counterexample for C2 as stated: through the public create-decision
endpoint, starting from a freshly imported article, a full_text/include
decision completes the article (invariant still fine), after which a
title_abstract/include decision — an allowed input to the endpoint — drags
the completed article back to (awaiting_full_text, full_text) while
`final_decision` stays `included`, breaking the invariant. -/
theorem create_decision_invariant_counterexample :
    create_decision_endpoint
        { articles := [sampleImportedArticle], decisions := [] } 1 1 7
        sampleIncludeFT =
      Except.ok
        (mk_screening_decision 1 sampleIncludeFT (some 7),
         { articles := [sampleCompletedIncluded],
           decisions := [mk_screening_decision 1 sampleIncludeFT (some 7)] }) ∧
    create_decision_endpoint
        { articles := [sampleCompletedIncluded],
          decisions := [mk_screening_decision 1 sampleIncludeFT (some 7)] } 1 1 7
        sampleIncludeTA =
      Except.ok
        (mk_screening_decision 1 sampleIncludeTA (some 7),
         { articles := [sampleBrokenArticle],
           decisions := [mk_screening_decision 1 sampleIncludeFT (some 7),
             mk_screening_decision 1 sampleIncludeTA (some 7)] }) ∧
    ¬ ArticleInvariant sampleBrokenArticle := by
  refine ⟨rfl, rfl, by decide⟩

/-! ## C3: atomicity of decision recording -/

/-- C3 (amended): decision recording is not atomic — the decision row is
committed by `ScreeningService.create_decision` in a first transaction and
the article mutation by `update_article_status_from_decision` in a second;
after the first commit point the store holds the new decision while the
article table is still untouched, so a failure between the two leaves an
orphaned decision alongside stale article state. -/
theorem create_decision_commits_decision_before_article
    (db : DB) (a : Article) (data : ScreeningDecisionCreate) (rid : Option Nat) :
    (committed_after (create_decision_commit_steps a data rid) 1 db).decisions =
        db.decisions ++ [mk_screening_decision a.id data rid] ∧
      (committed_after (create_decision_commit_steps a data rid) 1 db).articles =
        db.articles :=
  ⟨rfl, rfl⟩

/-- Counterexample for C3 as stated: for a concrete store and decision, the
create-decision flow is not an atomic unit — failing after its first commit
leaves a state that is neither the initial nor the final one. -/
theorem create_decision_not_atomic_counterexample :
    ¬ AtomicOp
        (create_decision_commit_steps sampleScreeningArticle sampleIncludeTA (some 7))
        { articles := [sampleScreeningArticle], decisions := [] } := by
  decide

/-! ## C4 and C8: the AI screening agent -/

/-- Store holding just the sample screening article. -/
def sampleDB : DB := { articles := [sampleScreeningArticle], decisions := [] }

/-- A successful AI evaluator output recommending include. -/
def sampleScreeningResult : ScreeningResult :=
  { decision := ScreeningDecisionType.include, confidence := 1,
    criteria_evaluations := [], summary_reasoning := "ok" }

/-- The sample article after a successful AI screen: AI-check fields
stamped, screening state untouched. -/
def sampleAiCheckedArticle : Article :=
  { sampleScreeningArticle with
    ai_check_status := "completed"
    ai_check_result :=
      some (AiCheckResult.summary ScreeningDecisionType.include 1 [] "ok")
    last_ai_check := some 5 }

/-- C4 (amended): on a successful AI evaluation, `screen_article` persists
a ScreeningDecision with source `ai_agent` and the caller's reviewer id
(null from both callers), at the stage chosen by `full_text_retrieved`,
sets `ai_check_status` to completed, stores the condensed summary in
`ai_check_result` and stamps `last_ai_check` — but it never invokes the
state machine: the article's `status`, `current_stage` and
`final_decision` are left unchanged. -/
theorem screen_article_success_behavior (a : Article) (rid : Option Nat) (db : DB)
    (now : Nat) (rs : ScreeningResult) (sd : ScreeningDecision)
    (hsd : (screen_article a rid db now (Except.ok rs)).1 = Except.ok sd) :
    sd.source = DecisionSource.ai_agent ∧
    sd.reviewer_id = rid ∧
    sd.article_id = a.id ∧
    sd.decision = rs.decision ∧
    sd.stage = (if a.full_text_retrieved then ScreeningStage.full_text
      else ScreeningStage.title_abstract) ∧
    (screen_article a rid db now (Except.ok rs)).2.decisions = db.decisions ++ [sd] ∧
    ∀ b ∈ (screen_article a rid db now (Except.ok rs)).2.articles, b.id = a.id →
      (b.ai_check_status = "completed" ∧
       b.ai_check_result = some (AiCheckResult.summary rs.decision rs.confidence
         (rs.criteria_evaluations.map (fun e => (e.criterion_code, e)))
         rs.summary_reasoning) ∧
       b.last_ai_check = some now ∧
       b.status = a.status ∧
       b.current_stage = a.current_stage ∧
       b.final_decision = a.final_decision) := by
  simp only [screen_article, Except.ok.injEq] at hsd
  subst hsd
  refine ⟨rfl, rfl, rfl, rfl, rfl, rfl, ?_⟩
  intro b hb hbid
  simp only [screen_article, replace_article, List.mem_map] at hb
  obtain ⟨b0, _, hbeq⟩ := hb
  by_cases hid : b0.id == a.id
  · rw [if_pos hid] at hbeq
    subst hbeq
    exact ⟨rfl, rfl, rfl, rfl, rfl, rfl⟩
  · rw [if_neg hid] at hbeq
    subst hbeq
    rw [hbid] at hid
    simp at hid

/-- Witness for C4's amended statement: the concrete post-state of a
successful AI include at title/abstract. -/
theorem screen_article_success_behavior_witness :
    sampleAiCheckedArticle.ai_check_status = "completed" ∧
    sampleAiCheckedArticle.status = sampleScreeningArticle.status ∧
    sampleAiCheckedArticle.current_stage = sampleScreeningArticle.current_stage ∧
    sampleAiCheckedArticle.final_decision = sampleScreeningArticle.final_decision := by
  have h := (screen_article_success_behavior sampleScreeningArticle none sampleDB 5
    sampleScreeningResult
    { article_id := 1, reviewer_id := none, stage := ScreeningStage.title_abstract,
      decision := ScreeningDecisionType.include, source := DecisionSource.ai_agent,
      confidence_score := some 1, reasoning := some "ok",
      primary_exclusion_reason := none, criteria_evaluations := some [] }
    rfl).2.2.2.2.2.2 sampleAiCheckedArticle (by decide) rfl
  exact ⟨h.1, h.2.2.2.1, h.2.2.2.2.1, h.2.2.2.2.2⟩

/-- Counterexample for C4 as stated: a successful AI include at
title/abstract stamps the AI-check fields but leaves the article's status
at `screening`, whereas the state machine's new state for that decision is
`awaiting_full_text` — the owning article is never put into its new state
by the state machine. -/
theorem screen_article_no_state_machine_counterexample :
    (screen_article sampleScreeningArticle none sampleDB 5
        (Except.ok sampleScreeningResult)).2.articles = [sampleAiCheckedArticle] ∧
    sampleAiCheckedArticle.status = ArticleStatus.screening ∧
    sampleAiCheckedArticle.current_stage = ScreeningStage.title_abstract ∧
    sampleAiCheckedArticle.final_decision = FinalDecision.pending ∧
    (update_article_status_from_decision sampleScreeningArticle
        ScreeningStage.title_abstract ScreeningDecisionType.include).status =
      ArticleStatus.awaiting_full_text ∧
    ArticleStatus.screening ≠ ArticleStatus.awaiting_full_text := by
  refine ⟨rfl, rfl, rfl, rfl, rfl, by decide⟩

/-- The sample article after a failed AI screen. -/
def sampleErrorArticle : Article :=
  { sampleScreeningArticle with
    ai_check_status := "error"
    ai_check_result := some (AiCheckResult.failure "timeout")
    last_ai_check := some 5 }

/-- C8: whenever the AI evaluation raises (timeouts included),
`screen_article` stamps `ai_check_status = error`, stores the error message
in `ai_check_result`, stamps `last_ai_check`, creates no ScreeningDecision,
re-raises the error, and leaves the article's `status`, `current_stage`
and `final_decision` unchanged — so its eligibility for next-article
selection at every project/stage is exactly what it was before. -/
theorem screen_article_failure_behavior (a : Article) (rid : Option Nat) (db : DB)
    (now : Nat) (e : String) :
    (screen_article a rid db now (Except.error e)).1 = Except.error e ∧
    (screen_article a rid db now (Except.error e)).2.decisions = db.decisions ∧
    ∀ b ∈ (screen_article a rid db now (Except.error e)).2.articles, b.id = a.id →
      (b.ai_check_status = "error" ∧
       b.ai_check_result = some (AiCheckResult.failure e) ∧
       b.last_ai_check = some now ∧
       b.status = a.status ∧
       b.current_stage = a.current_stage ∧
       b.final_decision = a.final_decision ∧
       ∀ (pid : Nat) (stage : ScreeningStage),
         is_eligible (screen_article a rid db now (Except.error e)).2.decisions
             pid stage b =
           is_eligible db.decisions pid stage a) := by
  refine ⟨rfl, rfl, ?_⟩
  intro b hb hbid
  simp only [screen_article, replace_article, List.mem_map] at hb
  obtain ⟨b0, _, hbeq⟩ := hb
  by_cases hid : b0.id == a.id
  · rw [if_pos hid] at hbeq
    subst hbeq
    exact ⟨rfl, rfl, rfl, rfl, rfl, rfl, fun pid stage => rfl⟩
  · rw [if_neg hid] at hbeq
    subst hbeq
    rw [hbid] at hid
    simp at hid

/-- Witness for C8: a concrete timeout on the sample article. -/
theorem screen_article_failure_behavior_witness :
    sampleErrorArticle.ai_check_status = "error" ∧
    sampleErrorArticle.status = sampleScreeningArticle.status ∧
    is_eligible [] 1 ScreeningStage.title_abstract sampleErrorArticle =
      is_eligible [] 1 ScreeningStage.title_abstract sampleScreeningArticle := by
  have h := (screen_article_failure_behavior sampleScreeningArticle none sampleDB 5
    "timeout").2.2 sampleErrorArticle (by decide) rfl
  exact ⟨h.1, h.2.2.2.1, h.2.2.2.2.2.2 1 ScreeningStage.title_abstract⟩

/-! ## C5: mismatched-stage decisions -/

/-- Counterexample for C5 as stated: a full_text/include decision submitted
for an article whose current stage is title_abstract (status `screening`)
is recorded — and the endpoint nevertheless mutates the article to
(included, completed, included): mismatched-stage decisions are applied,
not ignored. -/
theorem mismatched_stage_decision_counterexample :
    sampleIncludeFT.stage ≠ sampleScreeningArticle.current_stage ∧
    create_decision_endpoint sampleDB 1 1 7 sampleIncludeFT =
      Except.ok
        (mk_screening_decision 1 sampleIncludeFT (some 7),
         { articles := [sampleCompletedIncluded],
           decisions := [mk_screening_decision 1 sampleIncludeFT (some 7)] }) ∧
    sampleCompletedIncluded.status ≠ sampleScreeningArticle.status := by
  refine ⟨by decide, rfl, by decide⟩

/-- C5 (amended): a decision submitted through the create-decision endpoint
whose stage does not equal the article's current stage is still recorded in
the log, but the article is NOT left unchanged: the endpoint applies the
state machine keyed on the decision's stage, so the article becomes exactly
`update_article_status_from_decision article data.stage data.decision`. -/
theorem mismatched_stage_decision_recorded_and_applied
    (db : DB) (project_id article_id user_id : Nat) (data : ScreeningDecisionCreate)
    (d : ScreeningDecision) (db2 : DB) (a : Article)
    (hok : create_decision_endpoint db project_id article_id user_id data =
      Except.ok (d, db2))
    (hfind : get_article_by_id db article_id = some a)
    (hmismatch : data.stage ≠ a.current_stage) :
    db2.decisions = db.decisions ++ [d] ∧
    ∀ b ∈ db2.articles, b.id = a.id →
      b = update_article_status_from_decision a data.stage data.decision := by
  unfold create_decision_endpoint at hok
  rw [hfind] at hok
  dsimp only at hok
  by_cases hp : a.project_id == project_id
  · rw [if_pos hp] at hok
    simp only [Except.ok.injEq, Prod.mk.injEq] at hok
    obtain ⟨hd, hdb2⟩ := hok
    subst hdb2
    refine ⟨by rw [← hd]; rfl, ?_⟩
    intro b hb hbid
    simp only [service_create_decision, replace_article, List.mem_map] at hb
    obtain ⟨b0, _, hbeq⟩ := hb
    by_cases hid :
        b0.id == (update_article_status_from_decision a data.stage data.decision).id
    · rw [if_pos hid] at hbeq
      exact hbeq.symm
    · rw [if_neg hid] at hbeq
      subst hbeq
      rw [update_id, ← hbid] at hid
      simp at hid
  · rw [if_neg hp] at hok
    exact absurd hok (by simp)

/-- Witness for C5's amended statement: the concrete mismatched
full_text/include decision on a title_abstract article yields exactly the
state machine's full_text/include transition. -/
theorem mismatched_stage_decision_recorded_and_applied_witness :
    sampleCompletedIncluded =
      update_article_status_from_decision sampleScreeningArticle
        ScreeningStage.full_text ScreeningDecisionType.include :=
  (mismatched_stage_decision_recorded_and_applied sampleDB 1 1 7 sampleIncludeFT
    (mk_screening_decision 1 sampleIncludeFT (some 7))
    { articles := [sampleCompletedIncluded],
      decisions := [mk_screening_decision 1 sampleIncludeFT (some 7)] }
    sampleScreeningArticle rfl rfl (by decide)).2
    sampleCompletedIncluded (by decide) rfl

/-! ## C6: next-article selection -/

/-- Membership in the screened-ids subquery unpacked. -/
theorem mem_screened_article_ids (decisions : List ScreeningDecision)
    (stage : ScreeningStage) (n : Nat) :
    n ∈ screened_article_ids decisions stage ↔
      ∃ d ∈ decisions, d.stage = stage ∧ d.article_id = n := by
  unfold screened_article_ids
  simp only [List.mem_dedup, List.mem_map, List.mem_filter, beq_iff_eq]
  constructor
  · rintro ⟨d, ⟨hd, hds⟩, hn⟩
    exact ⟨d, hd, hds, hn⟩
  · rintro ⟨d, hd, hds, hn⟩
    exact ⟨d, ⟨hd, hds⟩, hn⟩

/-- C6: the article returned by next-article selection (if any) has the
stage's target status (`screening` for title_abstract,
`full_text_retrieved` for full_text), belongs to the project, has no
decision of any type recorded at that stage (so an article with an
uncertain decision there is never re-offered), and has the smallest id
among eligible articles; when the eligible set is empty the query returns
none rather than an error. -/
theorem next_article_selection_spec (db : DB) (pid : Nat) (stage : ScreeningStage) :
    (∀ a, get_next_article_for_screening db pid stage = some a →
      (a ∈ eligible_articles db pid stage ∧
       a.status = target_status_for stage ∧
       a.project_id = pid ∧
       (∀ d ∈ db.decisions, d.stage = stage → d.article_id ≠ a.id) ∧
       ∀ b ∈ eligible_articles db pid stage, a.id ≤ b.id)) ∧
    (eligible_articles db pid stage = [] →
      get_next_article_for_screening db pid stage = none) ∧
    target_status_for ScreeningStage.title_abstract = ArticleStatus.screening ∧
    target_status_for ScreeningStage.full_text = ArticleStatus.full_text_retrieved := by
  refine ⟨?_, ?_, rfl, rfl⟩
  · intro a ha
    have hmem : a ∈ eligible_articles db pid stage :=
      List.argmin_mem (Option.mem_def.mpr ha)
    have hel : is_eligible db.decisions pid stage a = true :=
      (List.mem_filter.mp hmem).2
    simp only [is_eligible, Bool.and_eq_true, beq_iff_eq, Bool.not_eq_true'] at hel
    obtain ⟨⟨hpid, hst⟩, hscreened⟩ := hel
    have hnotmem : a.id ∉ screened_article_ids db.decisions stage := by
      intro hmem2
      have h2 : (screened_article_ids db.decisions stage).contains a.id = true := by
        unfold List.contains
        exact List.elem_eq_true_of_mem hmem2
      rw [h2] at hscreened
      simp at hscreened
    refine ⟨hmem, hst, hpid, ?_, ?_⟩
    · intro d hd hds heq
      exact hnotmem ((mem_screened_article_ids db.decisions stage a.id).mpr
        ⟨d, hd, hds, heq⟩)
    · intro b hb
      exact List.le_of_mem_argmin hb (Option.mem_def.mpr ha)
  · intro h
    unfold get_next_article_for_screening
    rw [h]
    rfl

/-- Article with no decision yet, offered as the next one in the sample
store. -/
def sampleNextArticle : Article :=
  { id := 2, project_id := 1, status := ArticleStatus.screening }

/-- An uncertain human decision at title_abstract for article 1. -/
def sampleUncertainDecision : ScreeningDecision :=
  { article_id := 1, stage := ScreeningStage.title_abstract,
    decision := ScreeningDecisionType.uncertain, source := DecisionSource.human }

/-- Store with three screening articles, article 1 already carrying an
uncertain decision at title_abstract. -/
def sampleNextDB : DB :=
  { articles := [sampleScreeningArticle, sampleNextArticle,
      { id := 3, project_id := 1, status := ArticleStatus.screening }],
    decisions := [sampleUncertainDecision] }

/-- Witness for C6: in the sample store article 1 is skipped (it has an
uncertain decision at the stage) and article 2, the smallest eligible id,
is returned with the target status. -/
theorem next_article_selection_spec_witness :
    sampleNextArticle ∈ eligible_articles sampleNextDB 1 ScreeningStage.title_abstract ∧
    sampleNextArticle.status = target_status_for ScreeningStage.title_abstract ∧
    sampleNextArticle.project_id = 1 := by
  have h := (next_article_selection_spec sampleNextDB 1 ScreeningStage.title_abstract).1
    sampleNextArticle rfl
  exact ⟨h.1, h.2.1, h.2.2.1⟩

/-! ## C7 and C10: statistics aggregation -/

/-- Partition of a project's article count by the six statuses. -/
theorem status_count_partition (l : List Article) (pid : Nat) :
    (l.filter (fun a => a.project_id == pid && a.status == ArticleStatus.included)).length +
    (l.filter (fun a => a.project_id == pid && a.status == ArticleStatus.excluded)).length +
    (l.filter (fun a => a.project_id == pid && a.status == ArticleStatus.screening)).length +
    (l.filter (fun a => a.project_id == pid && a.status == ArticleStatus.awaiting_full_text)).length +
    (l.filter (fun a => a.project_id == pid && a.status == ArticleStatus.imported)).length +
    (l.filter (fun a => a.project_id == pid && a.status == ArticleStatus.full_text_retrieved)).length =
    (l.filter (fun a => a.project_id == pid)).length := by
  induction l with
  | nil => rfl
  | cons a t ih =>
    simp only [List.filter_cons]
    by_cases hp : (a.project_id == pid) = true
    · cases hst : a.status <;> simp [hp, hst] <;> omega
    · simp only [hp, Bool.false_and, Bool.and_eq_true, beq_iff_eq]
      simpa [hp] using ih

/-- C7 (amended): the per-status counts reported by the stats operation sum
to the number of the project's articles whose status is one of
{screening, awaiting_full_text, included, excluded}; adding the project's
`imported` and `full_text_retrieved` articles — counted in the total but in
no per-status bucket — recovers `total_articles`. -/
theorem stats_sum_accounts_for_unbucketed (db : DB) (pid : Nat) :
    (get_screening_stats db pid).included + (get_screening_stats db pid).excluded +
      (get_screening_stats db pid).uncertain +
      (get_screening_stats db pid).awaiting_screening +
      (get_screening_stats db pid).awaiting_full_text +
      count_status db pid ArticleStatus.imported +
      count_status db pid ArticleStatus.full_text_retrieved =
    (get_screening_stats db pid).total_articles := by
  have h := status_count_partition db.articles pid
  simp only [get_screening_stats, count_status, count_project_articles]
  omega

/-- Counterexample for C7 as stated: one imported article gives
`total_articles = 1` while every per-status count (uncertain included) is
0, so the per-status counts do not sum to the total. -/
theorem stats_sum_counterexample :
    (get_screening_stats { articles := [sampleImportedArticle], decisions := [] } 1).included +
      (get_screening_stats { articles := [sampleImportedArticle], decisions := [] } 1).excluded +
      (get_screening_stats { articles := [sampleImportedArticle], decisions := [] } 1).uncertain +
      (get_screening_stats { articles := [sampleImportedArticle], decisions := [] } 1).awaiting_screening +
      (get_screening_stats { articles := [sampleImportedArticle], decisions := [] } 1).awaiting_full_text = 0 ∧
    (get_screening_stats { articles := [sampleImportedArticle], decisions := [] } 1).total_articles = 1 ∧
    (0 : Nat) ≠ 1 := by
  refine ⟨rfl, rfl, by decide⟩

/-- C10: the stats object's `uncertain` field is always 0 (it is never
assigned), and an article with status `imported` or `full_text_retrieved`
raises `total_articles` by one while leaving every per-status counter
(included, excluded, awaiting_screening, awaiting_full_text) untouched. -/
theorem stats_uncertain_zero_and_unbucketed (db : DB) (pid : Nat) (a : Article) :
    (get_screening_stats db pid).uncertain = 0 ∧
    ((a.status = ArticleStatus.imported ∨ a.status = ArticleStatus.full_text_retrieved) →
      a.project_id = pid →
      ((get_screening_stats { articles := db.articles ++ [a], decisions := db.decisions }
          pid).total_articles = (get_screening_stats db pid).total_articles + 1 ∧
       (get_screening_stats { articles := db.articles ++ [a], decisions := db.decisions }
          pid).included = (get_screening_stats db pid).included ∧
       (get_screening_stats { articles := db.articles ++ [a], decisions := db.decisions }
          pid).excluded = (get_screening_stats db pid).excluded ∧
       (get_screening_stats { articles := db.articles ++ [a], decisions := db.decisions }
          pid).awaiting_screening = (get_screening_stats db pid).awaiting_screening ∧
       (get_screening_stats { articles := db.articles ++ [a], decisions := db.decisions }
          pid).awaiting_full_text = (get_screening_stats db pid).awaiting_full_text)) := by
  refine ⟨rfl, fun hst hpid => ?_⟩
  have hps : (a.project_id == pid) = true := by simp [hpid]
  rcases hst with hst | hst <;>
    refine ⟨?_, ?_, ?_, ?_, ?_⟩ <;>
      simp [get_screening_stats, count_status, count_project_articles,
        List.filter_append, hps, hst]

/-- A second imported article, used to extend the sample store. -/
def sampleImported9 : Article := { id := 9, project_id := 1 }

/-- Witness for C10: appending an imported article to the sample store. -/
theorem stats_uncertain_zero_and_unbucketed_witness :
    (get_screening_stats
        { articles := sampleDB.articles ++ [sampleImported9],
          decisions := sampleDB.decisions } 1).total_articles =
      (get_screening_stats sampleDB 1).total_articles + 1 ∧
    (get_screening_stats
        { articles := sampleDB.articles ++ [sampleImported9],
          decisions := sampleDB.decisions } 1).included =
      (get_screening_stats sampleDB 1).included ∧
    (get_screening_stats
        { articles := sampleDB.articles ++ [sampleImported9],
          decisions := sampleDB.decisions } 1).excluded =
      (get_screening_stats sampleDB 1).excluded ∧
    (get_screening_stats
        { articles := sampleDB.articles ++ [sampleImported9],
          decisions := sampleDB.decisions } 1).awaiting_screening =
      (get_screening_stats sampleDB 1).awaiting_screening ∧
    (get_screening_stats
        { articles := sampleDB.articles ++ [sampleImported9],
          decisions := sampleDB.decisions } 1).awaiting_full_text =
      (get_screening_stats sampleDB 1).awaiting_full_text :=
  (stats_uncertain_zero_and_unbucketed sampleDB 1 sampleImported9).2 (Or.inl rfl) rfl

/-! ## C9: criterion order assignment -/

/-- Existing criterion with order 5 in project 1. -/
def sampleCriterion : Criterion :=
  { id := 1, project_id := 1, type := CriterionType.inclusion, code := "I1",
    description := "d", order := 5 }

/-- Creation payload with no order given. -/
def sampleCriterionCreateAuto : CriterionCreate :=
  { type := CriterionType.inclusion, code := "I2", description := "e",
    order := none }

/-- Creation payload with an explicit nonzero order. -/
def sampleCriterionCreateKeep : CriterionCreate :=
  { type := CriterionType.inclusion, code := "I3", description := "f",
    order := some 7 }

/-- Creation payload with an explicit order of 0. -/
def sampleCriterionCreateZero : CriterionCreate :=
  { type := CriterionType.inclusion, code := "I4", description := "g",
    order := some 0 }

/-- C9 (amended): `create_criterion` auto-assigns `order` via
`get_next_order` whenever the payload's order is absent (`None`) or `0`; an
explicitly given nonzero order is kept.  `get_next_order` is one more than
the greatest order among the project's criteria of the same type, and 0
when no such criterion exists. -/
theorem create_criterion_order_spec (criteria : List Criterion) (pid : Nat)
    (data : CriterionCreate) (new_id : Nat) :
    ((data.order = none ∨ data.order = some 0) →
      (create_criterion criteria pid data new_id).order =
        get_next_order criteria pid data.type) ∧
    (∀ k : Int, data.order = some k → k ≠ 0 →
      (create_criterion criteria pid data new_id).order = k) ∧
    (∀ c ∈ criteria, c.project_id = pid → c.type = data.type →
      c.order < get_next_order criteria pid data.type) ∧
    (criteria.filter (fun c => c.project_id == pid && c.type == data.type) ≠ [] →
      ∃ c ∈ criteria, c.project_id = pid ∧ c.type = data.type ∧
        get_next_order criteria pid data.type = c.order + 1) ∧
    (criteria.filter (fun c => c.project_id == pid && c.type == data.type) = [] →
      get_next_order criteria pid data.type = 0) := by
  refine ⟨?_, ?_, ?_, ?_, ?_⟩
  · rintro (h | h) <;> simp [create_criterion, h]
  · intro k hk hk0
    simp [create_criterion, hk, hk0]
  · intro c hc hcp hct
    have hcf : c ∈ criteria.filter (fun c => c.project_id == pid && c.type == data.type) := by
      rw [List.mem_filter]
      exact ⟨hc, by simp [hcp, hct]⟩
    unfold get_next_order
    cases hargmax : (criteria.filter
        (fun c => c.project_id == pid && c.type == data.type)).argmax Criterion.order with
    | none =>
      rw [List.argmax_eq_none] at hargmax
      rw [hargmax] at hcf
      cases hcf
    | some m =>
      have hle : c.order ≤ m.order :=
        List.le_of_mem_argmax hcf (Option.mem_def.mpr hargmax)
      show c.order < m.order + 1
      omega
  · intro hne
    cases hargmax : (criteria.filter
        (fun c => c.project_id == pid && c.type == data.type)).argmax Criterion.order with
    | none =>
      rw [List.argmax_eq_none] at hargmax
      exact absurd hargmax hne
    | some m =>
      have hmem : m ∈ criteria.filter (fun c => c.project_id == pid && c.type == data.type) :=
        List.argmax_mem (Option.mem_def.mpr hargmax)
      rw [List.mem_filter] at hmem
      obtain ⟨hmc, hcond⟩ := hmem
      simp only [Bool.and_eq_true, beq_iff_eq] at hcond
      refine ⟨m, hmc, hcond.1, hcond.2, ?_⟩
      unfold get_next_order
      rw [hargmax]
  · intro h
    unfold get_next_order
    rw [h]
    rfl

/-- Witness for C9's amended statement: with an existing order-5 criterion,
an omitted order is auto-assigned `get_next_order` (= 6) and an explicit
order 7 is kept. -/
theorem create_criterion_order_spec_witness :
    (create_criterion [sampleCriterion] 1 sampleCriterionCreateAuto 2).order =
      get_next_order [sampleCriterion] 1 CriterionType.inclusion ∧
    (create_criterion [sampleCriterion] 1 sampleCriterionCreateKeep 3).order = 7 :=
  ⟨(create_criterion_order_spec [sampleCriterion] 1 sampleCriterionCreateAuto 2).1
      (Or.inl rfl),
   (create_criterion_order_spec [sampleCriterion] 1 sampleCriterionCreateKeep 3).2.1
      7 rfl (by decide)⟩

/-- Counterexample for C9 as stated: an explicitly given order of 0 is not
kept — with an existing order-5 criterion of the same project and type, the
created criterion gets order 6. -/
theorem criterion_order_zero_counterexample :
    sampleCriterionCreateZero.order = some 0 ∧
    (create_criterion [sampleCriterion] 1 sampleCriterionCreateZero 2).order = 6 ∧
    (6 : Int) ≠ 0 := by
  refine ⟨rfl, rfl, by decide⟩

end Excludr
